import Mathlib

/-!
Verification of the flight-delay ML pipeline
(src/ml-model/train_model.py and src/ml-model/ml_api.py).

Conventions of the embedding:
* pandas/numpy floating-point cells are modelled as values of type
  `Option Rat` where `none` stands for NaN (a missing value) and
  `some q` for the exact rational value of the cell;
* HHMM schedule times and hours are natural numbers, day-of-week is an
  integer (it can be out of the valid range 1..7);
* a Python dict built by literal construction followed by `update` calls
  with fresh keys is modelled as an association list in insertion order;
* sklearn estimator objects are opaque library values; they are embedded
  as structures carrying their callable surface (predict_proba / predict)
  together with the documented sklearn contracts (class probabilities lie
  in [0,1]; hard predictions of a binary classifier are 0 or 1).
-/

/-- Round a rational to the nearest integer (half away from zero on the
upper side), written with explicit integer floor division so that it
evaluates by kernel reduction.  numpy and Python round halves to even
instead; no theorem below evaluates a rounding at a half-way point, so
the tie rule is unobservable here. -/
def ratRound (q : ℚ) : ℤ := Int.fdiv (2 * q.num + (q.den : ℤ)) (2 * (q.den : ℤ))

/-- Round a rational to three decimal digits, modelling the `.round(3)`
applied to the aggregated airport statistics. -/
def round3 (q : ℚ) : ℚ := (ratRound (q * 1000) : ℚ) / 1000

/-- Round to `k` decimal digits, modelling the Python `round(x, k)` used by
the API layer when shaping the response. -/
def roundTo (k : ℕ) (q : ℚ) : ℚ := (ratRound (q * 10 ^ k) : ℚ) / 10 ^ k

/-- Arithmetic mean of a list of rationals (pandas `mean` over a non-empty
group; the groups built below are always non-empty). -/
def listMean (xs : List ℚ) : ℚ := xs.sum / xs.length

/-- Sample variance with denominator `n - 1` (pandas default `ddof=1`). -/
def sampleVar (xs : List ℚ) : ℚ :=
  ((xs.map (fun x => (x - listMean xs) ^ 2)).sum) / ((xs.length : ℚ) - 1)

/-- pandas `Series.std` inside `groupby(...).agg`: with fewer than two
observations the sample standard deviation is undefined and pandas yields
NaN, modelled as `none`.  For two or more observations the code stores the
square root of the sample variance rounded to 3 digits; that square root is
irrational in general, so the embedded defined-value is the (rounded)
sample variance itself — every theorem below inspects only whether the
statistic is NaN (`none`) or a defined number (`some _`), never its
magnitude. -/
def pandasStd (xs : List ℚ) : Option ℚ :=
  if xs.length ≤ 1 then none else some (round3 (sampleVar xs))

/-- One historical flight record (one row of the cleaned training CSV),
with the columns the pipeline reads.  The `ArrDel15` field is the target
cell of the row; whether the *column* is present in the CSV at all is
tracked separately by `TrainingData.hasArrDel15`. -/
structure FlightRecord where
  Carrier : String
  OriginAirportName : String
  OriginState : String
  DestAirportName : String
  DestState : String
  CRSDepTime : ℕ
  CRSArrTime : ℕ
  DayOfWeek : ℤ
  Month : ℕ
  DepDelay : ℚ
  ArrDelay : ℚ
  ArrDel15 : ℚ
deriving DecidableEq

/-- One row of the aggregated per-airport statistics table produced by
`create_airport_features`: the columns `ArrDel15_count`, `ArrDel15_mean`,
`ArrDel15_std`, `DepDelay_mean`, `DepDelay_std`, `ArrDelay_mean`,
`ArrDelay_std` in the order pandas produces them (the `origin_` / `dest_`
prefix is added when the row is turned into key-value pairs). -/
structure StatRow where
  ArrDel15_count : ℚ
  ArrDel15_mean : ℚ
  ArrDel15_std : Option ℚ
  DepDelay_mean : ℚ
  DepDelay_std : Option ℚ
  ArrDelay_mean : ℚ
  ArrDelay_std : Option ℚ
deriving DecidableEq

/-- The group of records sharing a key value, as produced by pandas
`groupby` (rows in original order). -/
def groupRows (key : FlightRecord → String) (df : List FlightRecord)
    (a : String) : List FlightRecord :=
  df.filter (fun r => key r == a)

/-- Aggregate one `groupby` group into a statistics row, mirroring
the agg call taking count, mean and std of ArrDel15 and mean and std of
DepDelay and ArrDelay, followed by rounding to 3 digits. -/
def aggStats (g : List FlightRecord) : StatRow :=
  { ArrDel15_count := (g.length : ℚ)
    ArrDel15_mean := round3 (listMean (g.map FlightRecord.ArrDel15))
    ArrDel15_std := pandasStd (g.map FlightRecord.ArrDel15)
    DepDelay_mean := round3 (listMean (g.map FlightRecord.DepDelay))
    DepDelay_std := pandasStd (g.map FlightRecord.DepDelay)
    ArrDelay_mean := round3 (listMean (g.map FlightRecord.ArrDelay))
    ArrDelay_std := pandasStd (g.map FlightRecord.ArrDelay) }

/-- The origin-role statistics table of `create_airport_features` viewed as
a lookup: `some` exactly for airport names occurring as an origin. -/
def originStats (df : List FlightRecord) (a : String) : Option StatRow :=
  let g := groupRows FlightRecord.OriginAirportName df a
  if g.isEmpty then none else some (aggStats g)

/-- The destination-role statistics table, symmetric to `originStats`. -/
def destStats (df : List FlightRecord) (a : String) : Option StatRow :=
  let g := groupRows FlightRecord.DestAirportName df a
  if g.isEmpty then none else some (aggStats g)

/-- The `departure_hour` column derived in `feature_engineering`:
`CRSDepTime // 100` (Python floor division on a non-negative HHMM). -/
def departure_hour_of (crsDepTime : ℕ) : ℕ := crsDepTime / 100

/-- The `departure_period` bucket produced by
`pd.cut(departure_hour, bins=[0, 6, 12, 18, 24],
labels night, morning, afternoon, evening)`.
pandas `cut` defaults to right-closed, left-open intervals with
`include_lowest=False`, so the bins are (0,6], (6,12], (12,18], (18,24];
a value on no bin (for example 0, or anything above 24) becomes NaN,
modelled as `none`. -/
def departure_period (h : ℕ) : Option String :=
  if 0 < h ∧ h ≤ 6 then some "night"
  else if 6 < h ∧ h ≤ 12 then some "morning"
  else if 12 < h ∧ h ≤ 18 then some "afternoon"
  else if 18 < h ∧ h ≤ 24 then some "evening"
  else none

/-- The `season` column: the fixed month-to-season `.map` dictionary of
`feature_engineering`; months outside 1..12 map to NaN (`none`). -/
def season (m : ℕ) : Option String :=
  if m = 12 ∨ m = 1 ∨ m = 2 then some "winter"
  else if m = 3 ∨ m = 4 ∨ m = 5 then some "spring"
  else if m = 6 ∨ m = 7 ∨ m = 8 then some "summer"
  else if m = 9 ∨ m = 10 ∨ m = 11 then some "fall"
  else none

/-- An sklearn classifier as seen by the pipeline: its callable surface
plus the documented library contracts that the code relies on.
`predict_proba` is `some` for estimators exposing that method (both
candidate families do); `predict` is the hard 0/1 class prediction used by
the fallback branch of `predict_delay_probability`. -/
structure MLModel where
  predict_proba : Option (List ℚ → ℚ)
  predict : List ℚ → ℚ
  proba_mem : ∀ f x, predict_proba = some f → 0 ≤ f x ∧ f x ≤ 1
  predict_mem : ∀ x, predict x = 0 ∨ predict x = 1

/-- The `model_metadata` dictionary recorded at the end of `train_model`. -/
structure ModelMetadata where
  model_type : String
  roc_auc_score : ℚ
  training_samples : ℕ
  test_samples : ℕ
  feature_count : ℕ
  delay_rate : ℚ
  trained_on : String
  features : List String
deriving DecidableEq

/-- The mutable attributes of a `FlightDelayPredictor` instance.
`scaler` is `some t` once the `StandardScaler` has been fitted (with `t`
its transform) and `none` for the fresh, unfitted scaler of `__init__`
(whose `transform` raises `NotFittedError`); `model_metadata` is `none`
for the initial empty dict, in which case the model-type lookup yields
Python `None`.  The two airport-statistics tables are dictionary lookups
keyed by airport name. -/
structure PredictorState where
  model : Option MLModel
  label_encoders : List (String × List String)
  scaler : Option (List ℚ → List ℚ)
  feature_columns : List String
  airport_stats_origin : String → Option StatRow
  airport_stats_dest : String → Option StatRow
  model_metadata : Option ModelMetadata

/-- The first block of `sample_data` in `predict_delay_probability`:
time, weekday and distance entries with the literal midday defaults used
when no departure time is supplied. -/
def baseSample (day_of_week : ℤ) (departure_time : Option ℕ) :
    List (String × Option ℚ) :=
  [("DayOfWeek", some (day_of_week : ℚ)),
   ("departure_hour", some (match departure_time with
      | none => (12 : ℚ) | some t => ((t / 100 : ℕ) : ℚ))),
   ("arrival_hour", some (match departure_time with
      | none => (15 : ℚ) | some t => ((t / 100 + 3 : ℕ) : ℚ))),
   ("CRSDepTime", some (match departure_time with
      | none => (1200 : ℚ) | some t => (t : ℚ))),
   ("CRSArrTime", some (match departure_time with
      | none => (1500 : ℚ) | some t => ((t + 300 : ℕ) : ℚ))),
   ("is_weekend", some (if day_of_week = 6 ∨ day_of_week = 7 then (1 : ℚ) else 0)),
   ("state_distance", some 2)]

/-- The key-value pairs contributed by a stored origin-role statistics row
(the dictionary iteration over the stored origin-role row of the airport,
whose keys carry the `origin_` prefix in pandas column order). -/
def originRowKV (row : StatRow) : List (String × Option ℚ) :=
  [("origin_ArrDel15_count", some row.ArrDel15_count),
   ("origin_ArrDel15_mean", some row.ArrDel15_mean),
   ("origin_ArrDel15_std", row.ArrDel15_std),
   ("origin_DepDelay_mean", some row.DepDelay_mean),
   ("origin_DepDelay_std", row.DepDelay_std),
   ("origin_ArrDelay_mean", some row.ArrDelay_mean),
   ("origin_ArrDelay_std", row.ArrDelay_std)]

/-- Key-value pairs of a stored destination-role statistics row. -/
def destRowKV (row : StatRow) : List (String × Option ℚ) :=
  [("dest_ArrDel15_count", some row.ArrDel15_count),
   ("dest_ArrDel15_mean", some row.ArrDel15_mean),
   ("dest_ArrDel15_std", row.ArrDel15_std),
   ("dest_DepDelay_mean", some row.DepDelay_mean),
   ("dest_DepDelay_std", row.DepDelay_std),
   ("dest_ArrDelay_mean", some row.ArrDelay_mean),
   ("dest_ArrDelay_std", row.ArrDelay_std)]

/-- The hardcoded `avg_origin_stats` fallback dictionary used for an
origin airport absent from the statistics table. -/
def avgOriginStats : List (String × Option ℚ) :=
  [("origin_ArrDel15_count", some 500),
   ("origin_ArrDel15_mean", some 0.22),
   ("origin_ArrDel15_std", some 0.41),
   ("origin_DepDelay_mean", some 8.5),
   ("origin_DepDelay_std", some 25.0)]

/-- The hardcoded `avg_dest_stats` fallback dictionary. -/
def avgDestStats : List (String × Option ℚ) :=
  [("dest_ArrDel15_count", some 500),
   ("dest_ArrDel15_mean", some 0.22),
   ("dest_ArrDel15_std", some 0.41),
   ("dest_DepDelay_mean", some 8.5),
   ("dest_DepDelay_std", some 25.0)]

/-- The fixed default categorical encodings added by the synthesizer. -/
def encodedDefaults : List (String × Option ℚ) :=
  [("Carrier_encoded", some 0),
   ("departure_period_encoded", some 1),
   ("season_encoded", some 1)]

/-- The origin-statistics block of `sample_data`: the stored row when the
origin airport is a key of the origin-role table, the average-profile
constants otherwise. -/
def originBlock (st : PredictorState) (origin_airport : String) :
    List (String × Option ℚ) :=
  match st.airport_stats_origin origin_airport with
  | some row => originRowKV row
  | none => avgOriginStats

/-- The destination-statistics block of `sample_data`. -/
def destBlock (st : PredictorState) (dest_airport : String) :
    List (String × Option ℚ) :=
  match st.airport_stats_dest dest_airport with
  | some row => destRowKV row
  | none => avgDestStats

/-- The full `sample_data` dictionary of `predict_delay_probability` in
insertion order (all `update` calls add fresh keys, so the dictionary is
the concatenation of its blocks). -/
def sampleData (st : PredictorState) (origin_airport dest_airport : String)
    (day_of_week : ℤ) (departure_time : Option ℕ) :
    List (String × Option ℚ) :=
  baseSample day_of_week departure_time
    ++ originBlock st origin_airport
    ++ destBlock st dest_airport
    ++ encodedDefaults

/-- The feature vector actually scored: the loop
`for col in self.feature_columns: if col not in sample_df.columns:
sample_df[col] = 0` followed by `sample_df[self.feature_columns].fillna(0)`
yields, for every schema column in schema order, the `sample_data` value
with NaN (and absence) replaced by 0. -/
def synthFeatureVector (st : PredictorState)
    (origin_airport dest_airport : String) (day_of_week : ℤ)
    (departure_time : Option ℕ) : List (String × ℚ) :=
  st.feature_columns.map (fun c =>
    (c, ((List.lookup c
        (sampleData st origin_airport dest_airport day_of_week
          departure_time)).join).getD 0))

/-- The body of `predict_delay_probability` as a pure computation of the
returned probability: raise (`Except.error`) when no model is loaded or
when the scaler is unfitted, otherwise score the synthesized vector,
feeding the scaled copy to every model whose recorded `model_type` is not
`RandomForest` and the raw vector to a `RandomForest`. -/
def predictProbability (st : PredictorState)
    (origin_airport dest_airport : String) (day_of_week : ℤ)
    (departure_time : Option ℕ) : Except String ℚ :=
  match st.model with
  | none => Except.error "Model not trained yet. Call train_model() first."
  | some m =>
    match st.scaler with
    | none =>
      Except.error "NotFittedError: This StandardScaler instance is not fitted yet."
    | some sc =>
      let X := (synthFeatureVector st origin_airport dest_airport
        day_of_week departure_time).map Prod.snd
      let Xscaled := sc X
      match m.predict_proba with
      | some f =>
        Except.ok (if st.model_metadata.map ModelMetadata.model_type
            = some "RandomForest" then f X else f Xscaled)
      | none =>
        Except.ok (if st.model_metadata.map ModelMetadata.model_type
            = some "RandomForest" then m.predict X else m.predict Xscaled)

/-- The method `predict_delay_probability` acting on the predictor
object: the body contains no assignment to `self`, so the method returns
its result together with the unchanged state. -/
def predict_delay_probability (st : PredictorState)
    (origin_airport dest_airport : String) (day_of_week : ℤ)
    (departure_time : Option ℕ) : Except String ℚ × PredictorState :=
  (predictProbability st origin_airport dest_airport day_of_week
    departure_time, st)

/-- The JSON body of a successful `/predict` response (the fields the
serving layer derives from the prediction and the statistics tables). -/
structure PredictResponse where
  origin : String
  destination : String
  dayOfWeek : String
  delayProbability : ℚ
  probabilityDecimal : ℚ
  confidence : String
  confidenceScore : ℚ
  message : String
  originKnown : Bool
  destinationKnown : Bool
deriving DecidableEq

/-- Outcome of an API route: HTTP 400 with an error body, HTTP 500 with an
error body, or HTTP 200 with a prediction body. -/
inductive ApiResult where
  | badRequest : String → ApiResult
  | serverError : String → ApiResult
  | ok : PredictResponse → ApiResult
deriving DecidableEq

/-- The `day_names` dictionary of the `/predict` handler. -/
def dayName (d : ℤ) : Option String :=
  if d = 1 then some "Monday" else if d = 2 then some "Tuesday"
  else if d = 3 then some "Wednesday" else if d = 4 then some "Thursday"
  else if d = 5 then some "Friday" else if d = 6 then some "Saturday"
  else if d = 7 then some "Sunday" else none

/-- The `/predict` route handler `predict_delay` of ml_api.py, for a
request whose three required parameters are present and whose day-of-week
is an integer (requests failing those earlier checks are rejected before
this logic runs).  The handler validates the day-of-week range, calls the
core predictor (any exception becomes an HTTP 500 body), and classifies
confidence by membership of the two airport names in the two statistics
tables. -/
def predict_delay (st : PredictorState) (origin destination : String)
    (day_of_week : ℤ) (departure_time : Option ℕ) : ApiResult :=
  if day_of_week < 1 ∨ 7 < day_of_week then
    ApiResult.badRequest
      "dayOfWeek must be an integer between 1 (Monday) and 7 (Sunday)"
  else
    match predictProbability st origin destination day_of_week
        departure_time with
    | Except.error e => ApiResult.serverError e
    | Except.ok probability =>
      let origin_known := (st.airport_stats_origin origin).isSome
      let dest_known := (st.airport_stats_dest destination).isSome
      ApiResult.ok
        { origin := origin
          destination := destination
          dayOfWeek := (dayName day_of_week).getD ""
          delayProbability := roundTo 2 (probability * 100)
          probabilityDecimal := roundTo 4 probability
          confidence :=
            if origin_known && dest_known then "High"
            else if origin_known || dest_known then "Medium" else "Low"
          confidenceScore :=
            if origin_known && dest_known then 0.9
            else if origin_known || dest_known then 0.7 else 0.5
          message :=
            if 0.3 < probability then
              "High likelihood of delay - consider alternative flights"
            else if 0.2 < probability then "Moderate delay risk"
            else "Low delay risk"
          originKnown := origin_known
          destinationKnown := dest_known }

/-- The per-route outcome of the `/batch-predict` handler: it calls the
core predictor directly, with no day-of-week validation, and records a
success flag together with the rounded percentage (a caught exception
yields a failure entry instead). -/
def batch_predict (st : PredictorState)
    (routes : List (String × String × ℤ × Option ℕ)) :
    List (Bool × Option ℚ) :=
  routes.map (fun q =>
    match predictProbability st q.1 q.2.1 q.2.2.1 q.2.2.2 with
    | Except.ok p => (true, some (roundTo 2 (p * 100)))
    | Except.error _ => (false, none))

/-- The training input: the parsed rows of the cleaned CSV plus whether
the `ArrDel15` target column is present in the file at all (when it is
absent, every access to that column raises a pandas KeyError). -/
structure TrainingData where
  rows : List FlightRecord
  hasArrDel15 : Bool

/-- Insertion sort used to model the deterministic ordering of
`LabelEncoder.classes_` (distinct observed values in sorted order). -/
def insertSorted (s : String) : List String → List String
  | [] => [s]
  | x :: xs => if s ≤ x then s :: x :: xs else x :: insertSorted s xs

/-- Sort a list of strings ascending. -/
def sortStrings (l : List String) : List String := l.foldr insertSorted []

/-- The `LabelEncoder.fit` table: the sorted list of distinct
observed values. -/
def fitEncoder (xs : List String) : List String := sortStrings xs.dedup

/-- The stringified `Carrier` column of the engineered frame. -/
def carrierColumn (rows : List FlightRecord) : List String :=
  rows.map FlightRecord.Carrier

/-- The stringified `departure_period` column.  The categorical-NaN fill
of `feature_engineering` (column mode) is not modelled: no claim depends
on the class lists of the encoders, only on which encoders are recorded,
and on an empty frame (the only case a theorem below evaluates) the
column is empty either way. -/
def departurePeriodColumn (rows : List FlightRecord) : List String :=
  rows.map (fun r => (departure_period (departure_hour_of r.CRSDepTime)).getD "nan")

/-- The stringified `season` column (same modelling note as
`departurePeriodColumn`). -/
def seasonColumn (rows : List FlightRecord) : List String :=
  rows.map (fun r => (season r.Month).getD "nan")

/-- One step of the encoder bank of `prepare_features`: fit and record an
encoder for a categorical feature unless one is already recorded. -/
def bankStep (encs : List (String × List String)) (name : String)
    (vals : List String) : List (String × List String) :=
  if (List.lookup name encs).isSome then encs
  else encs ++ [(name, fitEncoder vals)]

/-- The encoder bank after `prepare_features` processed its three
categorical features in order. -/
def encoderBankFit (encs : List (String × List String))
    (rows : List FlightRecord) : List (String × List String) :=
  bankStep (bankStep (bankStep encs "Carrier" (carrierColumn rows))
    "departure_period" (departurePeriodColumn rows))
    "season" (seasonColumn rows)

/-- The feature-name list selected by `prepare_features`: the 17 numeric
columns in source order followed by the three encoded categorical columns
(all of them exist in the engineered frame, so the availability filter
keeps the whole list). -/
def trainingFeatureColumns : List String :=
  ["DayOfWeek", "departure_hour", "arrival_hour", "state_distance",
   "is_weekend", "CRSDepTime", "CRSArrTime",
   "origin_ArrDel15_count", "origin_ArrDel15_mean", "origin_ArrDel15_std",
   "origin_DepDelay_mean", "origin_DepDelay_std",
   "dest_ArrDel15_count", "dest_ArrDel15_mean", "dest_ArrDel15_std",
   "dest_DepDelay_mean", "dest_DepDelay_std",
   "Carrier_encoded", "departure_period_encoded", "season_encoded"]

/-- The error with which pandas aborts `create_airport_features` when the
aggregated `ArrDel15` column is missing from the CSV. -/
def keyErrorArrDel15 : String := "KeyError: Column ArrDel15 does not exist"

/-- The error with which `train_test_split` aborts on an empty feature
table (`n_samples=0`). -/
def valueErrorEmptySplit : String :=
  "ValueError: With n_samples=0, test_size=0.2 and train_size=None, the resulting train set will be empty."

/-- The opaque outputs of the sklearn fitting calls inside `train_model`:
the fitted scaler transform, the two fitted candidate estimators, their
test ROC-AUC scores and the training timestamp.  These are library
results (and wall-clock input) that the repository code consumes; the
repository-owned selection and recording logic is embedded explicitly in
`train_model` below. -/
structure SklearnOracle where
  fitScaler : List FlightRecord → List ℚ → List ℚ
  rfFit : List FlightRecord → MLModel
  gbFit : List FlightRecord → MLModel
  rfScore : ℚ
  gbScore : ℚ
  now : String

/-- The model-selection loop of `train_model`: candidates are tried in
dict insertion order (RandomForest, then GradientBoosting), starting from
`best_score = 0` and `best_model = None`, keeping a candidate only on a
strict score improvement. -/
def selectBest (sk : SklearnOracle) (rows : List FlightRecord) :
    Option MLModel × ℚ × String :=
  let afterRF : Option MLModel × ℚ × String :=
    if 0 < sk.rfScore then (some (sk.rfFit rows), sk.rfScore, "RandomForest")
    else (none, 0, "")
  if afterRF.2.1 < sk.gbScore then
    (some (sk.gbFit rows), sk.gbScore, "GradientBoosting")
  else afterRF

/-- The `train_model` method as a state transformer with exception
semantics: the returned state is the predictor object after the call (in
Python an exception leaves the mutations made so far in place), and the
second component is `some message` when the call raised.
Control flow of the source:
1. `feature_engineering` calls `create_airport_features`, whose very
   first aggregation touches the `ArrDel15` column — a missing target
   column raises there, before any attribute of `self` is assigned;
2. otherwise the two statistics tables, the encoder bank and the feature
   schema are recorded on `self`;
3. `train_test_split` raises on an empty feature table, after step 2 and
   before the scaler is fitted or any model is trained;
4. otherwise the scaler is fitted and recorded, the best candidate is
   selected and recorded, and the metadata dict is written (the 80/20
   split sizes use the ceiling test-size convention of sklearn). -/
def train_model (sk : SklearnOracle) (st : PredictorState)
    (data : TrainingData) : PredictorState × Option String :=
  if data.hasArrDel15 = false then (st, some keyErrorArrDel15)
  else
    let st1 := { st with
      airport_stats_origin := originStats data.rows
      airport_stats_dest := destStats data.rows }
    let st2 := { st1 with
      label_encoders := encoderBankFit st1.label_encoders data.rows
      feature_columns := trainingFeatureColumns }
    if data.rows.isEmpty then (st2, some valueErrorEmptySplit)
    else
      let nTest := (data.rows.length + 4) / 5
      let nTrain := data.rows.length - nTest
      let st3 := { st2 with scaler := some (sk.fitScaler data.rows) }
      let best := selectBest sk data.rows
      ({ st3 with
          model := best.1
          model_metadata := some {
            model_type := best.2.2
            roc_auc_score := best.2.1
            training_samples := nTrain
            test_samples := nTest
            feature_count := trainingFeatureColumns.length
            delay_rate := listMean (data.rows.map FlightRecord.ArrDel15)
            trained_on := sk.now
            features := trainingFeatureColumns } }, none)

/-- A concrete classifier scoring every input 1/2, used to instantiate
theorems about the prediction path on explicit states. -/
def constModel : MLModel where
  predict_proba := some (fun _ => 1/2)
  predict := fun _ => 0
  proba_mem := by
    intro f x h
    injection h with h
    subst h
    norm_num
  predict_mem := fun _ => Or.inl rfl

/-- A concrete origin-role statistics row for the airport JFK of the
worked example in the specification. -/
def jfkRow : StatRow where
  ArrDel15_count := 412
  ArrDel15_mean := 0.22
  ArrDel15_std := some 0.414
  DepDelay_mean := 8.5
  DepDelay_std := some 25.0
  ArrDelay_mean := 7.1
  ArrDelay_std := some 30.2

/-- A fully loaded predictor whose artifacts know the airport JFK in the
origin role only, with a RandomForest-labelled constant model and an
identity scaler transform. -/
def demoState : PredictorState where
  model := some constModel
  label_encoders :=
    [("Carrier", ["AA"]), ("departure_period", ["morning"]),
     ("season", ["winter"])]
  scaler := some (fun x => x)
  feature_columns := trainingFeatureColumns
  airport_stats_origin := fun a => if a = "JFK" then some jfkRow else none
  airport_stats_dest := fun _ => none
  model_metadata := some {
    model_type := "RandomForest"
    roc_auc_score := 0.71
    training_samples := 8
    test_samples := 2
    feature_count := 20
    delay_rate := 0.3
    trained_on := "2025-01-01T00:00:00"
    features := trainingFeatureColumns }

/-- A loaded predictor whose persisted schema contains a single feature
name that the synthesizer never produces. -/
def mystState : PredictorState where
  model := some constModel
  label_encoders := []
  scaler := some (fun x => x)
  feature_columns := ["mystery_feature"]
  airport_stats_origin := fun _ => none
  airport_stats_dest := fun _ => none
  model_metadata := some {
    model_type := "RandomForest"
    roc_auc_score := 0.7
    training_samples := 8
    test_samples := 2
    feature_count := 1
    delay_rate := 0.3
    trained_on := "2025-01-01T00:00:00"
    features := ["mystery_feature"] }

/-- The predictor object as built by `FlightDelayPredictor.__init__`:
no model, empty encoder dict, unfitted scaler, empty schema, empty
statistics dict, empty metadata dict. -/
def freshState : PredictorState where
  model := none
  label_encoders := []
  scaler := none
  feature_columns := []
  airport_stats_origin := fun _ => none
  airport_stats_dest := fun _ => none
  model_metadata := none

/-- A trivial instantiation of the sklearn fitting outputs, enough to run
`train_model` on explicit inputs. -/
def oracleUnit : SklearnOracle where
  fitScaler := fun _ x => x
  rfFit := fun _ => constModel
  gbFit := fun _ => constModel
  rfScore := 0.5
  gbScore := 0.5
  now := "2025-01-01T00:00:00"

/-- A two-record corpus in which the airport Solo appears as an origin in
exactly one historical flight and Hub in the other. -/
def exDf : List FlightRecord :=
  [{ Carrier := "AA", OriginAirportName := "Solo", OriginState := "NY",
     DestAirportName := "Hub", DestState := "CA", CRSDepTime := 900,
     CRSArrTime := 1200, DayOfWeek := 3, Month := 6, DepDelay := 5,
     ArrDelay := 10, ArrDel15 := 0 },
   { Carrier := "DL", OriginAirportName := "Hub", OriginState := "CA",
     DestAirportName := "Solo", DestState := "NY", CRSDepTime := 1400,
     CRSArrTime := 1700, DayOfWeek := 6, Month := 12, DepDelay := 25,
     ArrDelay := 30, ArrDel15 := 1 }]

/-- A loaded predictor whose origin-role statistics table is exactly the
one aggregated from `exDf`. -/
def soloState : PredictorState where
  model := some constModel
  label_encoders := []
  scaler := some (fun x => x)
  feature_columns := trainingFeatureColumns
  airport_stats_origin := originStats exDf
  airport_stats_dest := destStats exDf
  model_metadata := some {
    model_type := "RandomForest"
    roc_auc_score := 0.7
    training_samples := 1
    test_samples := 1
    feature_count := 20
    delay_rate := 0.5
    trained_on := "2025-01-01T00:00:00"
    features := trainingFeatureColumns }

/-- Helper: the keys of a list built by pairing each name with a computed
value are the names themselves. -/
theorem map_fst_keyed (f : String → ℚ) (l : List String) :
    (l.map (fun c => (c, f c))).map Prod.fst = l := by
  induction l with
  | nil => rfl
  | cons x xs ih => simp [ih]

/-- Helper: every schema column appears in the synthesized vector paired
with its zero-defaulted `sample_data` value. -/
theorem mem_synth (st : PredictorState) (o d : String) (dow : ℤ)
    (t : Option ℕ) (c : String) (hc : c ∈ st.feature_columns) :
    (c, ((List.lookup c (sampleData st o d dow t)).join).getD 0)
      ∈ synthFeatureVector st o d dow t :=
  List.mem_map_of_mem _ hc

/-- Helper: the origin block of `sample_data` for a known origin. -/
theorem originBlock_known (st : PredictorState) (o : String) (row : StatRow)
    (h : st.airport_stats_origin o = some row) :
    originBlock st o = originRowKV row := by
  unfold originBlock
  rw [h]

/-- Helper: the destination block of `sample_data` for an unknown
destination. -/
theorem destBlock_unknown (st : PredictorState) (d : String)
    (h : st.airport_stats_dest d = none) :
    destBlock st d = avgDestStats := by
  unfold destBlock
  rw [h]

/-- Helper: with a loaded model and a fitted scaler, the core predictor
never raises (both the predict_proba branch and the hard-prediction
fallback return a value). -/
theorem predictProbability_ok (st : PredictorState) (o d : String)
    (dow : ℤ) (t : Option ℕ) (m : MLModel) (sc : List ℚ → List ℚ)
    (hm : st.model = some m) (hs : st.scaler = some sc) :
    ∃ p, predictProbability st o d dow t = Except.ok p := by
  unfold predictProbability
  rw [hm, hs]
  rcases hp : m.predict_proba with _ | f <;> simp [hp]

/-- Claim C1: for every route query and every loaded schema, the
synthesized feature vector has exactly the schema feature names as its
keys, in schema order; and any schema feature name that the synthesis
dictionary does not produce appears in the vector with the fallback value
0 rather than being absent. -/
theorem c1_feature_vector_matches_schema (st : PredictorState)
    (o d : String) (dow : ℤ) (t : Option ℕ) :
    (synthFeatureVector st o d dow t).map Prod.fst = st.feature_columns ∧
    ∀ c ∈ st.feature_columns,
      List.lookup c (sampleData st o d dow t) = none →
      (c, (0 : ℚ)) ∈ synthFeatureVector st o d dow t := by
  constructor
  · exact map_fst_keyed _ _
  · intro c hc h
    have hmem := mem_synth st o d dow t c hc
    rw [h] at hmem
    simpa using hmem

/-- Witness for C1 at an explicit loaded predictor whose schema contains
a name the synthesizer never produces: the vector keys equal the schema
and the unproduced name is zero-filled. -/
theorem c1_feature_vector_matches_schema_witness :
    (synthFeatureVector mystState "Tampa International"
        "John Wayne Airport-Orange County" 3 none).map Prod.fst
      = mystState.feature_columns ∧
    ("mystery_feature", (0 : ℚ)) ∈ synthFeatureVector mystState
      "Tampa International" "John Wayne Airport-Orange County" 3 none :=
  ⟨(c1_feature_vector_matches_schema mystState "Tampa International"
      "John Wayne Airport-Orange County" 3 none).1,
   (c1_feature_vector_matches_schema mystState "Tampa International"
      "John Wayne Airport-Orange County" 3 none).2 "mystery_feature"
      (by decide) (by decide)⟩

/-- Claim C10: when a departure time t is supplied, the synthesis
dictionary sets arrival_hour to t // 100 + 3 and CRSArrTime to t + 300;
hence whenever t // 100 is at least 21 the synthesized arrival hour
exceeds 23 and the synthesized CRSArrTime exceeds 2359 — the arrival
fields leave the valid hour-of-day / HHMM range instead of wrapping past
midnight. -/
theorem c10_arrival_fields_overflow (st : PredictorState) (o d : String)
    (dow : ℤ) (t : ℕ) :
    List.lookup "arrival_hour" (sampleData st o d dow (some t))
      = some (some ((t / 100 + 3 : ℕ) : ℚ)) ∧
    List.lookup "CRSArrTime" (sampleData st o d dow (some t))
      = some (some ((t + 300 : ℕ) : ℚ)) ∧
    (21 ≤ t / 100 → 23 < t / 100 + 3 ∧ 2359 < t + 300) := by
  refine ⟨rfl, rfl, ?_⟩
  intro h
  omega

/-- Witness for C10 at the departure time 2130: the synthesized arrival
hour is 24 and the synthesized arrival time is 2430. -/
theorem c10_arrival_fields_overflow_witness :
    List.lookup "arrival_hour" (sampleData demoState "JFK" "LAX" 3 (some 2130))
      = some (some ((2130 / 100 + 3 : ℕ) : ℚ)) ∧
    23 < 2130 / 100 + 3 ∧ 2359 < 2130 + 300 :=
  ⟨(c10_arrival_fields_overflow demoState "JFK" "LAX" 3 2130).1,
   (c10_arrival_fields_overflow demoState "JFK" "LAX" 3 2130).2.2 (by decide)⟩

/-- Claim C9: two invocations of the prediction method against identical
loaded artifacts and an identical query return the same probability, and
the method leaves the predictor state unchanged (its body assigns nothing
to the object). -/
theorem c9_prediction_deterministic_pure (stA stB : PredictorState)
    (o d : String) (dow : ℤ) (t : Option ℕ) (h : stA = stB) :
    (predict_delay_probability stA o d dow t).1
      = (predict_delay_probability stB o d dow t).1 ∧
    (predict_delay_probability stA o d dow t).2 = stA := by
  subst h
  exact ⟨rfl, rfl⟩

/-- Witness for C9 at an explicit loaded predictor and query. -/
theorem c9_prediction_deterministic_pure_witness :
    (predict_delay_probability demoState "JFK" "LAX" 3 none).1
      = (predict_delay_probability demoState "JFK" "LAX" 3 none).1 ∧
    (predict_delay_probability demoState "JFK" "LAX" 3 none).2 = demoState :=
  c9_prediction_deterministic_pure demoState demoState "JFK" "LAX" 3 none rfl

/-- Claim C4: with a loaded model exposing predict_proba and a fitted
scaler, the returned value is exactly the positive-class score of the
model — computed on the scaled vector precisely when the recorded model
family is not the RandomForest (the family the specification calls
tree-based), and on the unscaled vector for the RandomForest — and every
returned probability lies in [0,1]. -/
theorem c4_scaling_and_probability_range (st : PredictorState)
    (o d : String) (dow : ℤ) (t : Option ℕ) (m : MLModel)
    (sc : List ℚ → List ℚ) (f : List ℚ → ℚ) (hm : st.model = some m)
    (hs : st.scaler = some sc) (hf : m.predict_proba = some f) :
    predictProbability st o d dow t =
      Except.ok
        (if st.model_metadata.map ModelMetadata.model_type
            = some "RandomForest"
         then f ((synthFeatureVector st o d dow t).map Prod.snd)
         else f (sc ((synthFeatureVector st o d dow t).map Prod.snd))) ∧
    ∀ p, predictProbability st o d dow t = Except.ok p →
      0 ≤ p ∧ p ≤ 1 := by
  have heq : predictProbability st o d dow t =
      Except.ok
        (if st.model_metadata.map ModelMetadata.model_type
            = some "RandomForest"
         then f ((synthFeatureVector st o d dow t).map Prod.snd)
         else f (sc ((synthFeatureVector st o d dow t).map Prod.snd))) := by
    unfold predictProbability
    simp only [hm, hs, hf]
  refine ⟨heq, ?_⟩
  intro p hp
  rw [heq] at hp
  injection hp with hp
  by_cases hc : st.model_metadata.map ModelMetadata.model_type
      = some "RandomForest"
  · rw [if_pos hc] at hp
    subst hp
    exact m.proba_mem f _ hf
  · rw [if_neg hc] at hp
    subst hp
    exact m.proba_mem f _ hf

/-- Witness for C4 at the explicit RandomForest-labelled predictor: the
returned probability is the unscaled-path score 1/2, which lies in
[0,1]. -/
theorem c4_scaling_and_probability_range_witness :
    predictProbability demoState "JFK" "LAX" 3 none = Except.ok (1/2) ∧
    0 ≤ (1/2 : ℚ) ∧ (1/2 : ℚ) ≤ 1 := by
  have h := c4_scaling_and_probability_range demoState "JFK" "LAX" 3 none
    constModel (fun x => x) (fun _ => 1/2) rfl rfl rfl
  refine ⟨?_, by norm_num⟩
  rw [h.1]
  rfl

/-- Helper: a key absent from the first list of an append is looked up
in the second. -/
theorem lookup_append_right {β : Type} (l1 l2 : List (String × β))
    (k : String) (h : List.lookup k l1 = none) :
    List.lookup k (l1 ++ l2) = List.lookup k l2 := by
  induction l1 with
  | nil => rfl
  | cons p l ih =>
    obtain ⟨k1, v1⟩ := p
    rw [List.cons_append]
    cases hbeq : k == k1 with
    | true => simp [List.lookup, hbeq] at h
    | false =>
      simp only [List.lookup, hbeq] at h ⊢
      exact ih h

/-- Helper: a key carried by neither the average-profile constants nor
any stored row is absent from the origin block, whichever branch the
membership test takes. -/
theorem lookup_originBlock_none (st : PredictorState) (o k : String)
    (h1 : List.lookup k avgOriginStats = none)
    (h2 : ∀ row, List.lookup k (originRowKV row) = none) :
    List.lookup k (originBlock st o) = none := by
  unfold originBlock
  cases st.airport_stats_origin o with
  | none => exact h1
  | some row => exact h2 row

/-- Helper: a key absent from the base block and from the origin block is
resolved inside the destination part of the synthesis dictionary. -/
theorem lookup_sampleData_dest_part (st : PredictorState) (o d : String)
    (dow : ℤ) (t : Option ℕ) (k : String)
    (hb : List.lookup k (baseSample dow t) = none)
    (ho : List.lookup k (originBlock st o) = none) :
    List.lookup k (sampleData st o d dow t)
      = List.lookup k (destBlock st d ++ encodedDefaults) := by
  unfold sampleData
  rw [List.append_assoc, List.append_assoc,
    lookup_append_right _ _ _ hb, lookup_append_right _ _ _ ho]

/-- Claim C7: for every query, each of the two airport roles is resolved
independently by its own membership test — an origin absent from the
origin-role table receives the fixed average-profile constants (500,
0.22, 0.41, 8.5, 25.0 — not zeros) for all its statistics features, and
symmetrically for an absent destination, while a present airport keeps
its stored row in that role; and with a loaded model and fitted scaler
the prediction returns a value rather than raising, whatever combination
of known and unknown airports the query names. -/
theorem c7_independent_average_profile_fallback (st : PredictorState)
    (o d : String) (dow : ℤ) (t : Option ℕ) :
    (st.airport_stats_origin o = none →
      originBlock st o = avgOriginStats ∧
      List.lookup "origin_ArrDel15_count" (sampleData st o d dow t)
        = some (some 500) ∧
      List.lookup "origin_ArrDel15_mean" (sampleData st o d dow t)
        = some (some 0.22) ∧
      List.lookup "origin_ArrDel15_std" (sampleData st o d dow t)
        = some (some 0.41) ∧
      List.lookup "origin_DepDelay_mean" (sampleData st o d dow t)
        = some (some 8.5) ∧
      List.lookup "origin_DepDelay_std" (sampleData st o d dow t)
        = some (some 25.0)) ∧
    (st.airport_stats_dest d = none →
      destBlock st d = avgDestStats ∧
      List.lookup "dest_ArrDel15_count" (sampleData st o d dow t)
        = some (some 500) ∧
      List.lookup "dest_ArrDel15_mean" (sampleData st o d dow t)
        = some (some 0.22) ∧
      List.lookup "dest_ArrDel15_std" (sampleData st o d dow t)
        = some (some 0.41) ∧
      List.lookup "dest_DepDelay_mean" (sampleData st o d dow t)
        = some (some 8.5) ∧
      List.lookup "dest_DepDelay_std" (sampleData st o d dow t)
        = some (some 25.0)) ∧
    (∀ row, st.airport_stats_origin o = some row →
      originBlock st o = originRowKV row ∧
      List.lookup "origin_ArrDel15_count" (sampleData st o d dow t)
        = some (some row.ArrDel15_count) ∧
      List.lookup "origin_ArrDel15_mean" (sampleData st o d dow t)
        = some (some row.ArrDel15_mean)) ∧
    (∀ row, st.airport_stats_dest d = some row →
      destBlock st d = destRowKV row ∧
      List.lookup "dest_ArrDel15_count" (sampleData st o d dow t)
        = some (some row.ArrDel15_count) ∧
      List.lookup "dest_ArrDel15_mean" (sampleData st o d dow t)
        = some (some row.ArrDel15_mean)) ∧
    (∀ m sc, st.model = some m → st.scaler = some sc →
      ∃ p, predictProbability st o d dow t = Except.ok p) := by
  refine ⟨?_, ?_, ?_, ?_, ?_⟩
  · intro ho
    have hob : originBlock st o = avgOriginStats := by
      unfold originBlock
      rw [ho]
    have hsd : sampleData st o d dow t =
        baseSample dow t ++ avgOriginStats ++ destBlock st d
          ++ encodedDefaults := by
      unfold sampleData
      rw [hob]
    refine ⟨hob, ?_, ?_, ?_, ?_, ?_⟩ <;> (rw [hsd]; rfl)
  · intro hd
    have hdb := destBlock_unknown st d hd
    refine ⟨hdb, ?_, ?_, ?_, ?_, ?_⟩
    · rw [lookup_sampleData_dest_part st o d dow t "dest_ArrDel15_count"
        rfl (lookup_originBlock_none st o "dest_ArrDel15_count" rfl
          (fun row => rfl)), hdb]
      rfl
    · rw [lookup_sampleData_dest_part st o d dow t "dest_ArrDel15_mean"
        rfl (lookup_originBlock_none st o "dest_ArrDel15_mean" rfl
          (fun row => rfl)), hdb]
      rfl
    · rw [lookup_sampleData_dest_part st o d dow t "dest_ArrDel15_std"
        rfl (lookup_originBlock_none st o "dest_ArrDel15_std" rfl
          (fun row => rfl)), hdb]
      rfl
    · rw [lookup_sampleData_dest_part st o d dow t "dest_DepDelay_mean"
        rfl (lookup_originBlock_none st o "dest_DepDelay_mean" rfl
          (fun row => rfl)), hdb]
      rfl
    · rw [lookup_sampleData_dest_part st o d dow t "dest_DepDelay_std"
        rfl (lookup_originBlock_none st o "dest_DepDelay_std" rfl
          (fun row => rfl)), hdb]
      rfl
  · intro row ho
    have hob := originBlock_known st o row ho
    have hsd : sampleData st o d dow t =
        baseSample dow t ++ originRowKV row ++ destBlock st d
          ++ encodedDefaults := by
      unfold sampleData
      rw [hob]
    refine ⟨hob, ?_, ?_⟩ <;> (rw [hsd]; rfl)
  · intro row hd
    have hdb : destBlock st d = destRowKV row := by
      unfold destBlock
      rw [hd]
    refine ⟨hdb, ?_, ?_⟩
    · rw [lookup_sampleData_dest_part st o d dow t "dest_ArrDel15_count"
        rfl (lookup_originBlock_none st o "dest_ArrDel15_count" rfl
          (fun r => rfl)), hdb]
      rfl
    · rw [lookup_sampleData_dest_part st o d dow t "dest_ArrDel15_mean"
        rfl (lookup_originBlock_none st o "dest_ArrDel15_mean" rfl
          (fun r => rfl)), hdb]
      rfl
  · intro m sc hm hs
    exact predictProbability_ok st o d dow t m sc hm hs

/-- Witness for C7 covering both fallback directions against the explicit
predictor that knows JFK only as an origin: an unknown origin receives the
average-profile constants, a known origin keeps its stored count 412, an
unknown destination receives the constants, and the prediction on the
fully unknown route completes without raising. -/
theorem c7_independent_average_profile_fallback_witness :
    List.lookup "origin_ArrDel15_count"
      (sampleData demoState "Nowhere Field" "LAX" 3 none)
      = some (some 500) ∧
    List.lookup "origin_ArrDel15_mean"
      (sampleData demoState "Nowhere Field" "LAX" 3 none)
      = some (some 0.22) ∧
    List.lookup "dest_ArrDel15_count"
      (sampleData demoState "Nowhere Field" "LAX" 3 none)
      = some (some 500) ∧
    List.lookup "origin_ArrDel15_count"
      (sampleData demoState "JFK" "LAX" 3 none)
      = some (some jfkRow.ArrDel15_count) ∧
    (predictProbability demoState "Nowhere Field" "LAX" 3 none).isOk
      = true := by
  have hA := c7_independent_average_profile_fallback demoState
    "Nowhere Field" "LAX" 3 none
  have hB := c7_independent_average_profile_fallback demoState
    "JFK" "LAX" 3 none
  obtain ⟨-, ha1, ha2, -, -, -⟩ := hA.1 rfl
  obtain ⟨-, ha3, -, -, -, -⟩ := hA.2.1 rfl
  refine ⟨ha1, ha2, ha3, (hB.2.2.1 jfkRow rfl).2.1, ?_⟩
  obtain ⟨p, hp⟩ := hA.2.2.2.2 constModel (fun x => x) rfl rfl
  rw [hp]
  rfl

/-- Claim C8: for a valid request served by the `/predict` handler
against a loaded predictor, the confidence label in the response is High
when both the origin name is in the origin-role table and the destination
name is in the destination-role table, Medium when exactly one of the two
is present, and Low when neither is. -/
theorem c8_confidence_classification (st : PredictorState)
    (o d : String) (dow : ℤ) (t : Option ℕ) (m : MLModel)
    (sc : List ℚ → List ℚ) (h1 : 1 ≤ dow) (h2 : dow ≤ 7)
    (hm : st.model = some m) (hs : st.scaler = some sc) :
    ∃ r, predict_delay st o d dow t = ApiResult.ok r ∧
      ((st.airport_stats_origin o).isSome = true →
        (st.airport_stats_dest d).isSome = true → r.confidence = "High") ∧
      ((st.airport_stats_origin o).isSome ≠ (st.airport_stats_dest d).isSome →
        r.confidence = "Medium") ∧
      ((st.airport_stats_origin o).isSome = false →
        (st.airport_stats_dest d).isSome = false → r.confidence = "Low") := by
  obtain ⟨p, hp⟩ := predictProbability_ok st o d dow t m sc hm hs
  have hday : ¬(dow < 1 ∨ 7 < dow) := by omega
  unfold predict_delay
  rw [if_neg hday, hp]
  refine ⟨_, rfl, ?_, ?_, ?_⟩
  · intro hO hD
    simp [hO, hD]
  · intro hne
    rcases hO : (st.airport_stats_origin o).isSome <;>
      rcases hD : (st.airport_stats_dest d).isSome <;>
      simp_all
  · intro hO hD
    simp [hO, hD]

/-- Witness for C8: against the explicit predictor knowing JFK only in
the origin role, the route (JFK, unknown airport) is served with the
confidence label Medium. -/
theorem c8_confidence_classification_witness :
    (match predict_delay demoState "JFK" "Nowhere Field" 3 none with
      | ApiResult.ok r => r.confidence
      | _ => "") = "Medium" := by
  obtain ⟨r, hr, _, hmed, _⟩ := c8_confidence_classification demoState
    "JFK" "Nowhere Field" 3 none constModel (fun x => x) (by decide)
    (by decide) rfl rfl
  rw [hr]
  exact hmed (by decide)

/-- Counterexample to claim C3: pandas cut with its default right-closed
bins contradicts the half-open bucketing of the claim at the boundary
inputs — a flight with scheduled departure 0600 (departure_hour 6)
receives the bucket night, not morning, and departure_hour 0 falls in no
bucket at all (NaN) instead of night. -/
theorem c3_counterexample :
    departure_period (departure_hour_of 600) = some "night" ∧
    departure_period (departure_hour_of 600) ≠ some "morning" ∧
    departure_period 0 = none ∧
    departure_period 0 ≠ some "night" := by decide

/-- Amended claim C3: departure_period equals night on (0,6], morning on
(6,12], afternoon on (12,18] and evening on (18,24]; departure_hour 0
(and any hour above 24) receives no bucket and becomes a missing value. -/
theorem c3_amended_right_closed_periods :
    (∀ h : ℕ, 0 < h → h ≤ 6 → departure_period h = some "night") ∧
    (∀ h : ℕ, 6 < h → h ≤ 12 → departure_period h = some "morning") ∧
    (∀ h : ℕ, 12 < h → h ≤ 18 → departure_period h = some "afternoon") ∧
    (∀ h : ℕ, 18 < h → h ≤ 24 → departure_period h = some "evening") ∧
    (∀ h : ℕ, h = 0 ∨ 24 < h → departure_period h = none) := by
  refine ⟨?_, ?_, ?_, ?_, ?_⟩
  · intro h h1 h2
    unfold departure_period
    rw [if_pos ⟨h1, h2⟩]
  · intro h h1 h2
    unfold departure_period
    rw [if_neg (by omega), if_pos ⟨h1, h2⟩]
  · intro h h1 h2
    unfold departure_period
    rw [if_neg (by omega), if_neg (by omega), if_pos ⟨h1, h2⟩]
  · intro h h1 h2
    unfold departure_period
    rw [if_neg (by omega), if_neg (by omega), if_neg (by omega),
      if_pos ⟨h1, h2⟩]
  · intro h h1
    unfold departure_period
    rw [if_neg (by omega), if_neg (by omega), if_neg (by omega),
      if_neg (by omega)]

/-- Witness for the amended C3 on interior and boundary hours. -/
theorem c3_amended_right_closed_periods_witness :
    departure_period 3 = some "night" ∧
    departure_period 7 = some "morning" ∧
    departure_period 13 = some "afternoon" ∧
    departure_period 19 = some "evening" ∧
    departure_period 25 = none :=
  ⟨c3_amended_right_closed_periods.1 3 (by decide) (by decide),
   c3_amended_right_closed_periods.2.1 7 (by decide) (by decide),
   c3_amended_right_closed_periods.2.2.1 13 (by decide) (by decide),
   c3_amended_right_closed_periods.2.2.2.1 19 (by decide) (by decide),
   c3_amended_right_closed_periods.2.2.2.2 25 (Or.inr (by decide))⟩

/-- Counterexample to claim C2: in the two-record corpus `exDf` the
airport Solo occurs as an origin exactly once, and the statistics table
records its ArrDel15 standard deviation as NaN (`none`), not as the
number 0 the claim requires. -/
theorem c2_counterexample :
    (originStats exDf "Solo").map StatRow.ArrDel15_std = some none ∧
    (originStats exDf "Solo").map StatRow.ArrDel15_std ≠ some (some 0) := by
  decide

/-- Amended claim C2: an airport with exactly one historical flight in a
role gets NaN (a missing value), not 0, for each of its three standard
deviations in that role of the statistics table; the 0 appears only at
prediction time, where the final zero-fill of the synthesizer turns the
stored NaN into the feature value 0 (at training time the merged NaN
cells are filled with the column median instead). -/
theorem c2_amended_single_flight_std_nan (df : List FlightRecord)
    (a : String)
    (h1 : (groupRows FlightRecord.OriginAirportName df a).length = 1) :
    (originStats df a
        = some (aggStats (groupRows FlightRecord.OriginAirportName df a)) ∧
      (aggStats (groupRows FlightRecord.OriginAirportName df a)).ArrDel15_std
        = none ∧
      (aggStats (groupRows FlightRecord.OriginAirportName df a)).DepDelay_std
        = none ∧
      (aggStats (groupRows FlightRecord.OriginAirportName df a)).ArrDelay_std
        = none) ∧
    ∀ (st : PredictorState) (d : String) (dow : ℤ) (t : Option ℕ),
      st.airport_stats_origin = originStats df →
      "origin_ArrDel15_std" ∈ st.feature_columns →
      ("origin_ArrDel15_std", (0 : ℚ)) ∈ synthFeatureVector st a d dow t := by
  have hne : (groupRows FlightRecord.OriginAirportName df a).isEmpty
      = false := by
    cases hg : groupRows FlightRecord.OriginAirportName df a with
    | nil => rw [hg] at h1; simp at h1
    | cons x xs => rfl
  have hrow : originStats df a
      = some (aggStats (groupRows FlightRecord.OriginAirportName df a)) := by
    simp only [originStats, hne, Bool.false_eq_true, if_false]
  have hstd1 : (aggStats
      (groupRows FlightRecord.OriginAirportName df a)).ArrDel15_std
      = none := by
    simp [aggStats, pandasStd, h1]
  have hstd2 : (aggStats
      (groupRows FlightRecord.OriginAirportName df a)).DepDelay_std
      = none := by
    simp [aggStats, pandasStd, h1]
  have hstd3 : (aggStats
      (groupRows FlightRecord.OriginAirportName df a)).ArrDelay_std
      = none := by
    simp [aggStats, pandasStd, h1]
  refine ⟨⟨hrow, hstd1, hstd2, hstd3⟩, ?_⟩
  intro st d dow t hst hcol
  have ho : st.airport_stats_origin a
      = some (aggStats (groupRows FlightRecord.OriginAirportName df a)) := by
    rw [hst]
    exact hrow
  have hsd : sampleData st a d dow t =
      baseSample dow t
        ++ originRowKV (aggStats (groupRows FlightRecord.OriginAirportName df a))
        ++ destBlock st d ++ encodedDefaults := by
    unfold sampleData
    rw [originBlock_known st a _ ho]
  have hlk : List.lookup "origin_ArrDel15_std" (sampleData st a d dow t)
      = some ((aggStats
          (groupRows FlightRecord.OriginAirportName df a)).ArrDel15_std) := by
    rw [hsd]
    rfl
  have hmem := mem_synth st a d dow t "origin_ArrDel15_std" hcol
  rw [hlk, hstd1] at hmem
  simpa using hmem

/-- Witness for the amended C2: against the predictor trained on `exDf`,
the synthesized vector for a query with origin Solo carries the value 0
for the schema feature origin_ArrDel15_std. -/
theorem c2_amended_single_flight_std_nan_witness :
    ("origin_ArrDel15_std", (0 : ℚ))
      ∈ synthFeatureVector soloState "Solo" "Hub" 3 none :=
  (c2_amended_single_flight_std_nan exDf "Solo" (by decide)).2 soloState
    "Hub" 3 none rfl (by decide)

/-- Counterexample to claim C5: a batch prediction request with
day-of-week 8 is served successfully — the `/batch-predict` handler and
the core predictor perform no range validation, so the caller receives a
probability (50 percent here) computed from the out-of-range day instead
of a validation error. -/
theorem c5_counterexample :
    batch_predict demoState [("Tampa International",
      "John Wayne Airport-Orange County", 8, none)]
      = [(true, some 50)] := by
  have hp : predictProbability demoState "Tampa International"
      "John Wayne Airport-Orange County" 8 none = Except.ok (1/2) := rfl
  unfold batch_predict
  simp only [List.map_cons, List.map_nil, hp]
  norm_num [roundTo, ratRound, Rat.num_ofNat, Rat.den_ofNat]
  have hf : Int.fdiv 10001 2 = 5000 := rfl
  rw [hf]
  norm_num

/-- Amended claim C5: only the single-prediction `/predict` endpoint
validates the day-of-week — for any request with day-of-week outside
[1,7] it returns the 400 validation error before any probability is
computed; the core `predict_delay_probability` and the `/batch-predict`
endpoint perform no such validation and compute a probability from the
out-of-range value. -/
theorem c5_amended_only_single_endpoint_validates (st : PredictorState)
    (o d : String) (dow : ℤ) (t : Option ℕ) (h : dow < 1 ∨ 7 < dow) :
    predict_delay st o d dow t = ApiResult.badRequest
      "dayOfWeek must be an integer between 1 (Monday) and 7 (Sunday)" := by
  unfold predict_delay
  rw [if_pos h]

/-- Witness for the amended C5 at day-of-week 8. -/
theorem c5_amended_only_single_endpoint_validates_witness :
    predict_delay demoState "JFK" "LAX" 8 none = ApiResult.badRequest
      "dayOfWeek must be an integer between 1 (Monday) and 7 (Sunday)" :=
  c5_amended_only_single_endpoint_validates demoState "JFK" "LAX" 8 none
    (by decide)

/-- Counterexample to claim C6: training on data whose engineered feature
table is empty (target column present, zero rows) does raise, but only at
the train/test split — by then the three label encoders and the
twenty-name feature schema have already been recorded on the predictor,
contradicting the claim that no encoders are recorded. -/
theorem c6_counterexample :
    (train_model oracleUnit freshState
      { rows := [], hasArrDel15 := true }).2 = some valueErrorEmptySplit ∧
    (train_model oracleUnit freshState
      { rows := [], hasArrDel15 := true }).1.label_encoders
      = [("Carrier", []), ("departure_period", []), ("season", [])] ∧
    (train_model oracleUnit freshState
      { rows := [], hasArrDel15 := true }).1.feature_columns
      = trainingFeatureColumns :=
  ⟨rfl, rfl, rfl⟩

/-- Amended claim C6: a missing target column makes training raise inside
the first airport aggregation, before any predictor attribute is
assigned; an empty engineered feature table makes training raise at the
train/test split — after the airport statistics, the label encoders and
the feature schema have been recorded — while the model, the scaler and
the metadata remain unassigned, and nothing is persisted because
`save_model` is never reached. -/
theorem c6_amended_encoders_recorded_before_split (sk : SklearnOracle)
    (st : PredictorState) (data : TrainingData) :
    (data.hasArrDel15 = false →
      train_model sk st data = (st, some keyErrorArrDel15)) ∧
    (data.hasArrDel15 = true → data.rows = [] →
      (train_model sk st data).2 = some valueErrorEmptySplit ∧
      (train_model sk st data).1.model = st.model ∧
      (train_model sk st data).1.scaler = st.scaler ∧
      (train_model sk st data).1.model_metadata = st.model_metadata ∧
      (train_model sk st data).1.feature_columns = trainingFeatureColumns ∧
      (train_model sk st data).1.label_encoders
        = encoderBankFit st.label_encoders []) := by
  constructor
  · intro h
    unfold train_model
    rw [if_pos h]
  · intro h hrows
    unfold train_model
    rw [if_neg (by simp [h]), hrows]
    simp

/-- Witness for the amended C6: both failure branches evaluated at
explicit inputs — the missing-column run leaves the fresh predictor
untouched, and the empty-table run leaves its model unassigned. -/
theorem c6_amended_encoders_recorded_before_split_witness :
    train_model oracleUnit freshState { rows := exDf, hasArrDel15 := false }
      = (freshState, some keyErrorArrDel15) ∧
    (train_model oracleUnit freshState
      { rows := [], hasArrDel15 := true }).1.model = freshState.model :=
  ⟨(c6_amended_encoders_recorded_before_split oracleUnit freshState
      { rows := exDf, hasArrDel15 := false }).1 rfl,
   ((c6_amended_encoders_recorded_before_split oracleUnit freshState
      { rows := [], hasArrDel15 := true }).2 rfl rfl).2.1⟩
